import Mathlib

/-!
Shallow embedding of the `workspace` package (pkg/workspace/workspace.go) of
the go_workspace repository, together with theorems checking the claims of
its specification.

The filesystem is modelled as an explicit state: a set of directories and a
set of files with contents. OS calls that can fail for external reasons
(permissions, disk errors, ...) additionally consult failure oracles stored
in the `World`; a deterministic world has all oracles return `none`.

External collaborators (the `kv` key-value loader and the `builder.Builder`)
are not part of this repository source; they are modelled from the spec, and
the Builder's `Load`/`Install` outcomes are world oracles.
-/

set_option autoImplicit false

namespace GoWorkspace

/-- Minimal model of `path/filepath.Join` for two already-clean components:
joining with a slash, with the empty string as the neutral element. -/
def joinPath (a b : String) : String :=
  if a = "" then b else if b = "" then a else a ++ "/" ++ b

/-- Filesystem state: the set of existing directories and the existing files
with their contents. -/
structure FS where
  dirs : List String
  files : List (String × String)
  deriving Repr

/-- Model of `util.IsDir`: the path exists and is a directory. -/
def IsDir (fs : FS) (p : String) : Bool :=
  decide (p ∈ fs.dirs)

/-- Model of `util.FileExists`: the path exists and is a regular file. -/
def FileExists (fs : FS) (p : String) : Bool :=
  decide (p ∈ fs.files.map Prod.fst)

/-- Model of `util.PathExists`: the path exists, as a directory or a file. -/
def PathExists (fs : FS) (p : String) : Bool :=
  IsDir fs p || FileExists fs p

/-- Model of the key-value pairs returned by the `kv` collaborator. -/
structure KeyValue where
  Key : String
  Value : String
  deriving Repr, DecidableEq

/-- Modelled from the spec: the external Builder collaborator environment
(scratch directory, install directory, build directory, source path). -/
structure BuilderEnv where
  ScratchDir : String := ""
  InstallDir : String := ""
  BuildDir : String := ""
  SrcPath : String := ""
  deriving Repr, DecidableEq

/-- Modelled from the spec: the application targeted by the Builder. -/
structure BuilderApp where
  Name : String := ""
  URL : String := ""
  deriving Repr, DecidableEq

/-- Modelled from the spec: the external Builder collaborator, an opaque
capability that is only assembled and invoked by this component. -/
structure Builder where
  Env : BuilderEnv := {}
  ConfigureExtraArgs : List String := []
  App : BuilderApp := {}
  deriving Repr, DecidableEq

/-- The world: filesystem state, the HOME environment variable, failure
oracles for the fallible OS calls, and outcome oracles for the external
Builder collaborator. -/
structure World where
  fs : FS
  home : String
  mkdirFail : String → Option String
  createFail : String → Option String
  writeFail : String → Option String
  syncFail : String → Option String
  builderLoadErr : Builder → Bool → Option String
  builderInstallErr : Builder → Option String

/-- Model of `os.MkdirAll`: succeeds if the path is already a directory,
fails on an injected error or if the path is an existing file, otherwise
records the new directory. -/
def MkdirAll (world : World) (p : String) : Except String World :=
  if IsDir world.fs p then .ok world
  else
    match world.mkdirFail p with
    | some e => .error e
    | none =>
      if FileExists world.fs p then .error ("mkdir " ++ p ++ ": not a directory")
      else .ok { world with fs := { world.fs with dirs := p :: world.fs.dirs } }

/-- Model of `os.Mkdir`: fails on an injected error or if the path already
exists, otherwise records the new directory. -/
def Mkdir (world : World) (p : String) : Except String World :=
  match world.mkdirFail p with
  | some e => .error e
  | none =>
    if PathExists world.fs p then .error ("mkdir " ++ p ++ ": file exists")
    else .ok { world with fs := { world.fs with dirs := p :: world.fs.dirs } }

/-- Model of `os.Create`: fails on an injected error or if the path is a
directory, otherwise truncates or creates the file with empty content. -/
def CreateFile (world : World) (p : String) : Except String World :=
  match world.createFail p with
  | some e => .error e
  | none =>
    if IsDir world.fs p then .error ("open " ++ p ++ ": is a directory")
    else .ok { world with fs :=
      { world.fs with files := (p, "") :: world.fs.files.filter (fun f => f.1 != p) } }

/-- Model of `File.WriteString`: fails on an injected error, otherwise
appends to the file content. -/
def WriteFileString (world : World) (p s : String) : Except String World :=
  match world.writeFail p with
  | some e => .error e
  | none => .ok { world with fs :=
    { world.fs with files := world.fs.files.map (fun f => if f.1 = p then (f.1, f.2 ++ s) else f) } }

/-- Model of `File.Sync`: fails on an injected error, otherwise a no-op. -/
def SyncFile (world : World) (p : String) : Except String World :=
  match world.syncFail p with
  | some e => .error e
  | none => .ok world

/-- Reads the content of a file, if present. -/
def readFile (fs : FS) (p : String) : Option String :=
  (fs.files.find? (fun f => decide (f.1 = p))).map Prod.snd

/-- The `configFileName` constant of the source. -/
def configFileName : String := "workspace.conf"

/-- The `Config` structure of the source (workspace configuration). -/
structure Config where
  Name : String := ""
  ConfigFile : String := ""
  ConfDir : String := ""
  Basedir : String := ""
  DownloadDir : String := ""
  ScratchDir : String := ""
  InstallDir : String := ""
  BuildDir : String := ""
  SrcDir : String := ""
  RunDir : String := ""
  MpiDir : String := ""
  MpirunArgs : String := ""
  deriving Repr, DecidableEq

/-- Model of `Config.setStructure`: recomputes the six derived directories from
`Basedir`. Pure: it takes no filesystem state. -/
def setStructure (w : Config) : Config :=
  { w with
    ScratchDir := joinPath w.Basedir "scratch"
    DownloadDir := joinPath w.Basedir "download"
    SrcDir := joinPath w.Basedir "src"
    BuildDir := joinPath w.Basedir "build"
    InstallDir := joinPath w.Basedir "install"
    RunDir := joinPath w.Basedir "run" }

/-- The body of `Config.Init` after `Basedir` has been ensured and
`setStructure` has run: creates each missing derived directory, returning the
first error. The download, scratch, install and build errors are wrapped with
the directory purpose; the src and run errors are returned as-is (as in the
source). -/
def initDirs (w : Config) (world : World) : Option String × Config × World :=
  match (if PathExists world.fs w.DownloadDir then Except.ok world else MkdirAll world w.DownloadDir) with
  | .error e =>
    (some ("unable to create the workspace's download directory " ++ w.DownloadDir ++ ": " ++ e), w, world)
  | .ok world =>
  match (if PathExists world.fs w.ScratchDir then Except.ok world else Mkdir world w.ScratchDir) with
  | .error e =>
    (some ("unable to create the workspace's scratch directory " ++ w.ScratchDir ++ ": " ++ e), w, world)
  | .ok world =>
  match (if PathExists world.fs w.InstallDir then Except.ok world else Mkdir world w.InstallDir) with
  | .error e =>
    (some ("unable to create the workspace's install directory " ++ w.InstallDir ++ ": " ++ e), w, world)
  | .ok world =>
  match (if PathExists world.fs w.BuildDir then Except.ok world else Mkdir world w.BuildDir) with
  | .error e =>
    (some ("unable to create the workspace's build directory " ++ w.BuildDir ++ ": " ++ e), w, world)
  | .ok world =>
  match (if PathExists world.fs w.SrcDir then Except.ok world else Mkdir world w.SrcDir) with
  | .error e => (some e, w, world)
  | .ok world =>
  match (if PathExists world.fs w.RunDir then Except.ok world else Mkdir world w.RunDir) with
  | .error e => (some e, w, world)
  | .ok world => (none, w, world)

/-- Model of `Config.Init`: ensures `Basedir` exists, recomputes the derived
paths, and creates each missing derived directory. -/
def Init (w : Config) (world : World) : Option String × Config × World :=
  match (if IsDir world.fs w.Basedir then Except.ok world else MkdirAll world w.Basedir) with
  | .error e => (some e, w, world)
  | .ok world => initDirs (setStructure w) world

/-- Model of `Config.getPathToConfigDir`: the directory holding the config file. -/
def getPathToConfigDir (w : Config) : String :=
  joinPath w.ConfDir ("." ++ w.Name)

/-- Model of `Config.getConfigFilePath`: defaults `ConfDir` to HOME when unset, then
derives the config file path. Returns the path and the updated config. -/
def getConfigFilePath (w : Config) (world : World) : String × Config :=
  let w := if w.ConfDir = "" then { w with ConfDir := world.home } else w
  (joinPath (getPathToConfigDir w) configFileName, w)

/-- Model of `Config.createDefaultConfigFile`: creates the config directory, defaults
`Basedir` to HOME when unset, appends `{Name}_ws` to `Basedir`, creates the
base directory, and writes the single-line `dir=<Basedir>` config file. -/
def createDefaultConfigFile (w : Config) (world : World) : Option String × Config × World :=
  if w.ConfDir = "" then (some "configuration directory is undefined", w, world)
  else if w.ConfigFile = "" then (some "configuration file is undefined", w, world)
  else
  match (if PathExists world.fs (getPathToConfigDir w) then Except.ok world
         else MkdirAll world (getPathToConfigDir w)) with
  | .error e => (some e, w, world)
  | .ok world =>
  let w := if w.Basedir = "" then { w with Basedir := world.home } else w
  let w := { w with Basedir := joinPath w.Basedir (w.Name ++ "_ws") }
  match (if PathExists world.fs w.Basedir then Except.ok world else MkdirAll world w.Basedir) with
  | .error e => (some e, w, world)
  | .ok world =>
  match CreateFile world w.ConfigFile with
  | .error e => (some e, w, world)
  | .ok world =>
  match WriteFileString world w.ConfigFile ("dir=" ++ w.Basedir ++ "\n") with
  | .error e => (some e, w, world)
  | .ok world =>
  match SyncFile world w.ConfigFile with
  | .error e => (some e, w, world)
  | .ok world => (none, w, world)

/-- Splits a character list at every occurrence of the separator
(structural analogue of `String.splitOn` on a single character). -/
def splitOnChar (c : Char) : List Char → List (List Char)
  | [] => [[]]
  | x :: xs =>
    if x = c then [] :: splitOnChar c xs
    else
      match splitOnChar c xs with
      | [] => [[x]]
      | y :: ys => (x :: y) :: ys

/-- Joins character lists with the separator (structural analogue of
`String.intercalate` on a single character). -/
def joinWithChar (c : Char) : List (List Char) → List Char
  | [] => []
  | [x] => x
  | x :: xs => x ++ c :: joinWithChar c xs

/-- Parses one `key=value` line of the config file: the key is the part
before the first equals sign, the value everything after it. -/
def parseConfigLine (line : List Char) : Except String KeyValue :=
  match splitOnChar '=' line with
  | [] => .error ("invalid line format: " ++ String.mk line)
  | [_] => .error ("invalid line format: " ++ String.mk line)
  | key :: rest => .ok { Key := String.mk key, Value := String.mk (joinWithChar '=' rest) }

/-- Modelled from the spec: `kv.LoadKeyValueConfig`, the external key-value
loader collaborator. Reads the file and parses it into an ordered sequence
of key-value pairs, one `key=value` pair per non-empty line; malformed lines
are loader failures. -/
def LoadKeyValueConfig (fs : FS) (path : String) : Except String (List KeyValue) :=
  match readFile fs path with
  | none => .error ("no such file or directory: " ++ path)
  | some content =>
    ((splitOnChar '\n' content.data).filter (fun l => !l.isEmpty)).mapM parseConfigLine

/-- The per-pair loop of `Config.ParseCfg`: a `dir` key sets `Basedir`; any
other key is an invalid-key error. -/
def applyKVs : List KeyValue → Config → Option String × Config
  | [], w => (none, w)
  | keyvalue :: rest, w =>
    if keyvalue.Key = "dir" then applyKVs rest { w with Basedir := keyvalue.Value }
    else (some ("invalid key (" ++ keyvalue.Key ++ ")"), w)

/-- Model of `Config.ParseCfg`: loads the key-value pairs of the config file and
applies them. -/
def ParseCfg (w : Config) (world : World) : Option String × Config :=
  if w.ConfigFile = "" then (some "configuration file is undefined", w)
  else
    match LoadKeyValueConfig world.fs w.ConfigFile with
    | .error e => (some e, w)
    | .ok kvs => applyKVs kvs w

/-- Model of `Config.Load`: derives the config file path when unset; bootstraps a
default config file (returning the distinguished needs-review error) when
the file does not exist; otherwise parses it and materializes the structure
when `Basedir` is missing, or merely recomputes the derived paths. -/
def Load (w : Config) (world : World) : Option String × Config × World :=
  let w := if w.ConfigFile = "" then
      (let pw := getConfigFilePath w world
       { pw.2 with ConfigFile := pw.1 })
    else w
  if FileExists world.fs w.ConfigFile then
    match ParseCfg w world with
    | (some e, w) => (some e, w, world)
    | (none, w) =>
      if PathExists world.fs w.Basedir then (none, setStructure w, world)
      else Init w world
  else
    match createDefaultConfigFile w world with
    | (some e, w, world) => (some e, w, world)
    | (none, w, world) => (some "new configuration file created, it needs review", w, world)

/-- Model of `Config.checkWorkspaceStructure`: validates that the scratch, install,
build, run and download directories are non-empty paths that exist on disk,
returning an error naming the first missing one. -/
def checkWorkspaceStructure (w : Config) (world : World) : Option String :=
  if w.ScratchDir = "" ∨ PathExists world.fs w.ScratchDir = false then
    some "workspace's scratch directory is undefined or does not exist"
  else if w.InstallDir = "" ∨ PathExists world.fs w.InstallDir = false then
    some "workspace's install directory is undefined or does not exist"
  else if w.BuildDir = "" ∨ PathExists world.fs w.BuildDir = false then
    some "workspace's build directory is undefined or does not exist"
  else if w.RunDir = "" ∨ PathExists world.fs w.RunDir = false then
    some "workspace's run directory is undefined or does not exist"
  else if w.DownloadDir = "" ∨ PathExists world.fs w.DownloadDir = false then
    some "workspace's download directory is undefined or does not exist"
  else none

/-- Model of `Config.InstallSoftware`: gates on the workspace structure, assembles
the Builder invocation and delegates to the collaborator, propagating its
errors verbatim. The second component records the Builder invocation that
was constructed, if any. -/
def InstallSoftware (w : Config) (world : World) (softwareName softwareURL : String)
    (configArgs : List String) : Option String × Option Builder :=
  match checkWorkspaceStructure w world with
  | some e => (some e, none)
  | none =>
    let b : Builder :=
      { Env := { ScratchDir := w.ScratchDir, InstallDir := w.InstallDir,
                 BuildDir := joinPath w.BuildDir softwareName,
                 SrcPath := joinPath w.DownloadDir softwareName },
        ConfigureExtraArgs := configArgs,
        App := { Name := softwareName, URL := softwareURL } }
    match world.builderLoadErr b true with
    | some e => (some e, some b)
    | none =>
      match world.builderInstallErr b with
      | some e => (some e, some b)
      | none => (none, some b)

/-- Model of `Config.GetSoftwareInstallDir`: pure computation of the per-software
install directory. -/
def GetSoftwareInstallDir (w : Config) (softwareName : String) : String :=
  joinPath w.InstallDir softwareName

/-- A deterministic world with the given filesystem and no injected
failures, used for concrete runs. -/
def plainWorld (dirs : List String) (files : List (String × String)) : World :=
  { fs := { dirs := dirs, files := files }, home := "/home/user",
    mkdirFail := fun _ => none, createFail := fun _ => none,
    writeFail := fun _ => none, syncFail := fun _ => none,
    builderLoadErr := fun _ _ => none, builderInstallErr := fun _ => none }

/-- A world where creating the src directory of base `/b` fails, for
exercising the unwrapped src error of `Init`; everything else is in place. -/
def srcFailWorld : World :=
  { fs := { dirs := ["/b", "/b/download", "/b/scratch", "/b/install", "/b/build"], files := [] },
    home := "/h",
    mkdirFail := fun p => if p = "/b/src" then some "permission denied" else none,
    createFail := fun _ => none, writeFail := fun _ => none, syncFail := fun _ => none,
    builderLoadErr := fun _ _ => none, builderInstallErr := fun _ => none }

/-- A world where creating the scratch directory of base `/b` fails, for
exercising the wrapped scratch error of `Init`. -/
def scratchFailWorld : World :=
  { fs := { dirs := ["/b", "/b/download"], files := [] }, home := "/h",
    mkdirFail := fun p => if p = "/b/scratch" then some "disk full" else none,
    createFail := fun _ => none, writeFail := fun _ => none, syncFail := fun _ => none,
    builderLoadErr := fun _ _ => none, builderInstallErr := fun _ => none }

/-- A concrete bootstrap configuration: name `myws`, config directory
`/cfg`, caller-supplied base directory `/data`, no config file path set. -/
def bootCfgNoFile : Config :=
  { Name := "myws", ConfDir := "/cfg", Basedir := "/data" }

/-- The same bootstrap configuration with the config file path already
derived, for exercising `createDefaultConfigFile` directly. -/
def bootCfg : Config :=
  { Name := "myws", ConfigFile := "/cfg/.myws/workspace.conf", ConfDir := "/cfg",
    Basedir := "/data" }

/-- A fresh deterministic world holding only the `/cfg` config directory. -/
def bootWorld : World := plainWorld ["/cfg"] []

/-! ## Basic lemmas about the filesystem model -/

theorem isDir_pathExists {fs : FS} {p : String} (h : IsDir fs p = true) :
    PathExists fs p = true := by
  simp [PathExists, h]

theorem pathExists_false_isDir {fs : FS} {p : String} (h : PathExists fs p = false) :
    IsDir fs p = false := by
  simp [PathExists] at h
  exact h.1

theorem pathExists_false_fileExists {fs : FS} {p : String} (h : PathExists fs p = false) :
    FileExists fs p = false := by
  simp [PathExists] at h
  exact h.2

theorem string_empty_append (s : String) : "" ++ s = s := by
  cases s
  rfl

theorem joinPath_ne_empty (a : String) {b : String} (hb : b ≠ "") : joinPath a b ≠ "" := by
  unfold joinPath
  by_cases ha : a = ""
  · rw [if_pos ha]
    exact hb
  · rw [if_neg ha, if_neg hb]
    intro h
    have hl := congrArg String.length h
    rw [String.length_append, String.length_append] at hl
    have h1 : ("/" : String).length = 1 := rfl
    have h2 : ("" : String).length = 0 := rfl
    omega

/-! ## Success facts for the guarded directory-creation steps of `Init` -/

theorem ensureDir_ok {world world2 : World} {p : String}
    (h : (if PathExists world.fs p then Except.ok world else Mkdir world p) = Except.ok world2) :
    PathExists world2.fs p = true ∧
    world2.fs.files = world.fs.files ∧
    (∀ q, PathExists world.fs q = true → PathExists world2.fs q = true) ∧
    (∀ q, IsDir world.fs q = true → IsDir world2.fs q = true) ∧
    (∀ q, IsDir world2.fs q = true → q = p ∨ IsDir world.fs q = true) := by
  by_cases hp : PathExists world.fs p = true
  · rw [if_pos hp] at h
    cases h
    exact ⟨hp, rfl, fun q hq => hq, fun q hq => hq, fun q hq => Or.inr hq⟩
  · rw [if_neg hp] at h
    unfold Mkdir at h
    cases hf : world.mkdirFail p with
    | some e => rw [hf] at h; cases h
    | none =>
      rw [hf] at h
      rw [if_neg hp] at h
      cases h
      refine ⟨?_, rfl, ?_, ?_, ?_⟩
      · simp [PathExists, IsDir]
      · intro q hq
        simp [PathExists, IsDir, FileExists] at hq ⊢
        tauto
      · intro q hq
        simp [IsDir] at hq ⊢
        tauto
      · intro q hq
        simp [IsDir] at hq ⊢
        tauto

theorem ensureDirAll_ok {world world2 : World} {p : String}
    (h : (if PathExists world.fs p then Except.ok world else MkdirAll world p) = Except.ok world2) :
    PathExists world2.fs p = true ∧
    world2.fs.files = world.fs.files ∧
    (∀ q, PathExists world.fs q = true → PathExists world2.fs q = true) ∧
    (∀ q, IsDir world.fs q = true → IsDir world2.fs q = true) ∧
    (∀ q, IsDir world2.fs q = true → q = p ∨ IsDir world.fs q = true) := by
  by_cases hp : PathExists world.fs p = true
  · rw [if_pos hp] at h
    cases h
    exact ⟨hp, rfl, fun q hq => hq, fun q hq => hq, fun q hq => Or.inr hq⟩
  · have hp' : PathExists world.fs p = false := by simpa using hp
    rw [if_neg hp] at h
    unfold MkdirAll at h
    rw [if_neg (by simp [pathExists_false_isDir hp'])] at h
    cases hf : world.mkdirFail p with
    | some e => rw [hf] at h; cases h
    | none =>
      rw [hf] at h
      rw [if_neg (by simp [pathExists_false_fileExists hp'])] at h
      cases h
      refine ⟨?_, rfl, ?_, ?_, ?_⟩
      · simp [PathExists, IsDir]
      · intro q hq
        simp [PathExists, IsDir, FileExists] at hq ⊢
        tauto
      · intro q hq
        simp [IsDir] at hq ⊢
        tauto
      · intro q hq
        simp [IsDir] at hq ⊢
        tauto

theorem ensureBase_ok {world world2 : World} {p : String}
    (h : (if IsDir world.fs p then Except.ok world else MkdirAll world p) = Except.ok world2) :
    IsDir world2.fs p = true ∧
    world2.fs.files = world.fs.files ∧
    (∀ q, PathExists world.fs q = true → PathExists world2.fs q = true) ∧
    (∀ q, IsDir world.fs q = true → IsDir world2.fs q = true) ∧
    (∀ q, IsDir world2.fs q = true → q = p ∨ IsDir world.fs q = true) := by
  by_cases hp : IsDir world.fs p = true
  · rw [if_pos hp] at h
    cases h
    exact ⟨hp, rfl, fun q hq => hq, fun q hq => hq, fun q hq => Or.inr hq⟩
  · rw [if_neg hp] at h
    unfold MkdirAll at h
    rw [if_neg hp] at h
    cases hf : world.mkdirFail p with
    | some e => rw [hf] at h; cases h
    | none =>
      rw [hf] at h
      by_cases hfe : FileExists world.fs p = true
      · rw [if_pos hfe] at h
        cases h
      · rw [if_neg hfe] at h
        cases h
        refine ⟨?_, rfl, ?_, ?_, ?_⟩
        · simp [IsDir]
        · intro q hq
          simp [PathExists, IsDir, FileExists] at hq ⊢
          tauto
        · intro q hq
          simp [IsDir] at hq ⊢
          tauto
        · intro q hq
          simp [IsDir] at hq ⊢
          tauto

theorem fileExists_eq_of_files_eq {fs1 fs2 : FS} (h : fs1.files = fs2.files) (p : String) :
    FileExists fs1 p = FileExists fs2 p := by
  simp [FileExists, h]

theorem ensureAllB_ok {world : World} {p : String}
    (hm : world.mkdirFail p = none) (_hf : FileExists world.fs p = false) :
    ∃ world2 : World,
      (if PathExists world.fs p then Except.ok world else MkdirAll world p) = Except.ok world2 ∧
      world2.fs.files = world.fs.files ∧
      (∀ q, IsDir world2.fs q = true → q = p ∨ IsDir world.fs q = true) ∧
      (∀ q, PathExists world.fs q = true → PathExists world2.fs q = true) ∧
      PathExists world2.fs p = true ∧
      world2.home = world.home ∧
      world2.mkdirFail = world.mkdirFail ∧
      world2.createFail = world.createFail ∧
      world2.writeFail = world.writeFail ∧
      world2.syncFail = world.syncFail := by
  by_cases hp : PathExists world.fs p = true
  · exact ⟨world, if_pos hp, rfl, fun q hq => Or.inr hq, fun q hq => hq, hp,
      rfl, rfl, rfl, rfl, rfl⟩
  · have hp' : PathExists world.fs p = false := by simpa using hp
    refine ⟨{ world with fs := { world.fs with dirs := p :: world.fs.dirs } },
      ?_, rfl, ?_, ?_, ?_, rfl, rfl, rfl, rfl, rfl⟩
    · rw [if_neg hp]
      unfold MkdirAll
      rw [if_neg (by simp [pathExists_false_isDir hp']), hm,
        if_neg (by simp [pathExists_false_fileExists hp'])]
    · intro q hq
      simp [IsDir] at hq ⊢
      tauto
    · intro q hq
      simp [PathExists, IsDir, FileExists] at hq ⊢
      tauto
    · simp [PathExists, IsDir]

/-! ## Success characterization of `createDefaultConfigFile` -/

theorem createDefaultConfigFile_ok (w : Config) (world : World)
    (hcd : ¬ w.ConfDir = "") (hcf : ¬ w.ConfigFile = "")
    (m1 : world.mkdirFail (getPathToConfigDir w) = none)
    (f1 : FileExists world.fs (getPathToConfigDir w) = false)
    (m2 : world.mkdirFail
      (joinPath (if w.Basedir = "" then world.home else w.Basedir) (w.Name ++ "_ws")) = none)
    (f2 : FileExists world.fs
      (joinPath (if w.Basedir = "" then world.home else w.Basedir) (w.Name ++ "_ws")) = false)
    (c1 : world.createFail w.ConfigFile = none)
    (wr1 : world.writeFail w.ConfigFile = none)
    (s1 : world.syncFail w.ConfigFile = none)
    (d1 : IsDir world.fs w.ConfigFile = false)
    (n1 : ¬ w.ConfigFile = getPathToConfigDir w)
    (n2 : ¬ w.ConfigFile =
      joinPath (if w.Basedir = "" then world.home else w.Basedir) (w.Name ++ "_ws")) :
    ∃ world5 : World,
      createDefaultConfigFile w world =
        (none,
         { w with Basedir :=
            joinPath (if w.Basedir = "" then world.home else w.Basedir) (w.Name ++ "_ws") },
         world5) ∧
      readFile world5.fs w.ConfigFile =
        some ("dir=" ++
          joinPath (if w.Basedir = "" then world.home else w.Basedir) (w.Name ++ "_ws") ++ "\n") ∧
      PathExists world5.fs
        (joinPath (if w.Basedir = "" then world.home else w.Basedir) (w.Name ++ "_ws")) = true := by
  obtain ⟨world2, heq1, F1, S1, M1, P1, H1, MK1, CR1, WR1, SY1⟩ := ensureAllB_ok m1 f1
  have m2' : world2.mkdirFail
      (joinPath (if w.Basedir = "" then world.home else w.Basedir) (w.Name ++ "_ws")) = none := by
    rw [MK1]
    exact m2
  have f2' : FileExists world2.fs
      (joinPath (if w.Basedir = "" then world.home else w.Basedir) (w.Name ++ "_ws")) = false := by
    rw [fileExists_eq_of_files_eq F1]
    exact f2
  obtain ⟨world3, heq2, F2, S2, M2, P2, H2, MK2, CR2, WR2, SY2⟩ := ensureAllB_ok m2' f2'
  have CR : world3.createFail = world.createFail := CR2.trans CR1
  have WR : world3.writeFail = world.writeFail := WR2.trans WR1
  have SY : world3.syncFail = world.syncFail := SY2.trans SY1
  have d3 : IsDir world3.fs w.ConfigFile = false := by
    cases hx : IsDir world3.fs w.ConfigFile with
    | false => rfl
    | true =>
      exfalso
      rcases S2 _ hx with h | h
      · exact n2 h
      · rcases S1 _ h with h' | h'
        · exact n1 h'
        · simp [d1] at h'
  have d3' : ¬ (IsDir world3.fs w.ConfigFile = true) := by simp [d3]
  have hmain : createDefaultConfigFile w world =
      (none,
       { w with Basedir :=
          joinPath (if w.Basedir = "" then world.home else w.Basedir) (w.Name ++ "_ws") },
       { world3 with fs := { world3.fs with files := List.map (fun f => if f.1 = w.ConfigFile then (f.1, f.2 ++ ("dir=" ++ joinPath (if w.Basedir = "" then world.home else w.Basedir) (w.Name ++ "_ws") ++ "\n")) else f) ((w.ConfigFile, "") :: List.filter (fun f => f.1 != w.ConfigFile) world3.fs.files) } }) := by
    simp only [createDefaultConfigFile, if_neg hcd, if_neg hcf, heq1, apply_ite, ite_self, H1,
      heq2, CreateFile, CR, c1, if_neg d3', WriteFileString, WR, wr1, SyncFile, SY, s1]
  refine ⟨_, hmain, ?_, ?_⟩
  · simp [readFile, List.find?, string_empty_append]
  · have hfe2 : FileExists world3.fs
        (joinPath (if w.Basedir = "" then world.home else w.Basedir) (w.Name ++ "_ws")) = false := by
      rw [fileExists_eq_of_files_eq F2]
      exact f2'
    have hid : IsDir world3.fs
        (joinPath (if w.Basedir = "" then world.home else w.Basedir) (w.Name ++ "_ws")) = true := by
      have hP := P2
      simp only [PathExists, hfe2, Bool.or_false] at hP
      exact hP
    simp only [PathExists, IsDir, FileExists] at hid ⊢
    simp only [decide_eq_true_eq] at hid
    simp [hid]

/-! ## Success characterization of `initDirs` and `Init` -/

theorem initDirs_ok {w w1 : Config} {world world1 : World}
    (h : initDirs w world = (none, w1, world1)) :
    w1 = w ∧
    PathExists world1.fs w.DownloadDir = true ∧
    PathExists world1.fs w.ScratchDir = true ∧
    PathExists world1.fs w.InstallDir = true ∧
    PathExists world1.fs w.BuildDir = true ∧
    PathExists world1.fs w.SrcDir = true ∧
    PathExists world1.fs w.RunDir = true ∧
    (∀ q, IsDir world.fs q = true → IsDir world1.fs q = true) ∧
    world1.fs.files = world.fs.files := by
  unfold initDirs at h
  split at h
  next e heq => simp at h
  next world2 heq1 =>
  split at h
  next e heq => simp at h
  next world3 heq2 =>
  split at h
  next e heq => simp at h
  next world4 heq3 =>
  split at h
  next e heq => simp at h
  next world5 heq4 =>
  split at h
  next e heq => simp at h
  next world6 heq5 =>
  split at h
  next e heq => simp at h
  next world7 heq6 =>
  obtain ⟨P1, F1, M1, D1, _⟩ := ensureDirAll_ok heq1
  obtain ⟨P2, F2, M2, D2, _⟩ := ensureDir_ok heq2
  obtain ⟨P3, F3, M3, D3, _⟩ := ensureDir_ok heq3
  obtain ⟨P4, F4, M4, D4, _⟩ := ensureDir_ok heq4
  obtain ⟨P5, F5, M5, D5, _⟩ := ensureDir_ok heq5
  obtain ⟨P6, F6, M6, D6, _⟩ := ensureDir_ok heq6
  simp only [Prod.mk.injEq, true_and] at h
  obtain ⟨hw, hworld⟩ := h
  subst hw
  subst hworld
  refine ⟨rfl, ?_, ?_, ?_, ?_, ?_, P6, ?_, ?_⟩
  · exact M6 _ (M5 _ (M4 _ (M3 _ (M2 _ P1))))
  · exact M6 _ (M5 _ (M4 _ (M3 _ P2)))
  · exact M6 _ (M5 _ (M4 _ P3))
  · exact M6 _ (M5 _ P4)
  · exact M6 _ P5
  · exact fun q hq => D6 _ (D5 _ (D4 _ (D3 _ (D2 _ (D1 _ hq)))))
  · exact F6.trans (F5.trans (F4.trans (F3.trans (F2.trans F1))))

theorem Init_ok {w w1 : Config} {world world1 : World}
    (h : Init w world = (none, w1, world1)) :
    w1 = setStructure w ∧
    IsDir world1.fs (setStructure w).Basedir = true ∧
    PathExists world1.fs (setStructure w).DownloadDir = true ∧
    PathExists world1.fs (setStructure w).ScratchDir = true ∧
    PathExists world1.fs (setStructure w).InstallDir = true ∧
    PathExists world1.fs (setStructure w).BuildDir = true ∧
    PathExists world1.fs (setStructure w).SrcDir = true ∧
    PathExists world1.fs (setStructure w).RunDir = true ∧
    world1.fs.files = world.fs.files := by
  unfold Init at h
  split at h
  next e heq => simp at h
  next world2 heq0 =>
  obtain ⟨P0, F0, M0, D0, _⟩ := ensureBase_ok heq0
  obtain ⟨hw, P1, P2, P3, P4, P5, P6, Dm, Ff⟩ := initDirs_ok h
  exact ⟨hw, Dm _ P0, P1, P2, P3, P4, P5, P6, Ff.trans F0⟩

theorem setStructure_idem (w : Config) : setStructure (setStructure w) = setStructure w := rfl

/-! ## The claims -/

/-- C7: `Init` is idempotent. If `Init` succeeds, running it again from the
resulting configuration and filesystem state succeeds, creates no directory
and changes nothing: it returns the very same configuration and world. -/
theorem C7_init_idempotent (w w1 : Config) (world world1 : World)
    (h : Init w world = (none, w1, world1)) :
    Init w1 world1 = (none, w1, world1) := by
  obtain ⟨hw, hbase, hdl, hsc, hins, hbld, hsrc, hrun, _⟩ := Init_ok h
  subst hw
  simp only [Init, setStructure_idem, hbase, initDirs, hdl, hsc, hins, hbld, hsrc, hrun, if_true]

/-- Witness for C7: a concrete first run of `Init` succeeds and the second
run returns the unchanged state. -/
theorem C7_witness :
    Init { Basedir := "/ws" } (plainWorld [] []) =
      (none, (Init { Basedir := "/ws" } (plainWorld [] [])).2.1,
       (Init { Basedir := "/ws" } (plainWorld [] [])).2.2) ∧
    Init (Init { Basedir := "/ws" } (plainWorld [] [])).2.1
        (Init { Basedir := "/ws" } (plainWorld [] [])).2.2 =
      (none, (Init { Basedir := "/ws" } (plainWorld [] [])).2.1,
       (Init { Basedir := "/ws" } (plainWorld [] [])).2.2) := by
  have h1 : Init { Basedir := "/ws" } (plainWorld [] []) =
      (none, (Init { Basedir := "/ws" } (plainWorld [] [])).2.1,
       (Init { Basedir := "/ws" } (plainWorld [] [])).2.2) := by rfl
  exact ⟨h1, C7_init_idempotent _ _ _ _ h1⟩

/-- C8: the derived paths are a pure function of `Basedir`: `setStructure`
always sets the six derived fields to `Basedir` joined with the fixed names,
leaves `Basedir` untouched, and two configurations with the same `Basedir`
get identical derived paths. `setStructure` takes no filesystem or world
state, so the derived paths are never read from persistent storage. -/
theorem C8_derived_path_determinism (w : Config) :
    (setStructure w).ScratchDir = joinPath w.Basedir "scratch" ∧
    (setStructure w).DownloadDir = joinPath w.Basedir "download" ∧
    (setStructure w).SrcDir = joinPath w.Basedir "src" ∧
    (setStructure w).BuildDir = joinPath w.Basedir "build" ∧
    (setStructure w).InstallDir = joinPath w.Basedir "install" ∧
    (setStructure w).RunDir = joinPath w.Basedir "run" ∧
    (setStructure w).Basedir = w.Basedir ∧
    (∀ w2 : Config, w2.Basedir = w.Basedir →
      (setStructure w2).ScratchDir = (setStructure w).ScratchDir ∧
      (setStructure w2).DownloadDir = (setStructure w).DownloadDir ∧
      (setStructure w2).SrcDir = (setStructure w).SrcDir ∧
      (setStructure w2).BuildDir = (setStructure w).BuildDir ∧
      (setStructure w2).InstallDir = (setStructure w).InstallDir ∧
      (setStructure w2).RunDir = (setStructure w).RunDir) := by
  refine ⟨rfl, rfl, rfl, rfl, rfl, rfl, rfl, ?_⟩
  intro w2 h
  simp [setStructure, h]

/-- Witness for C8: two distinct concrete configurations sharing a
`Basedir` get the same scratch path. -/
theorem C8_witness :
    ({ Basedir := "/b", Name := "other" } : Config).Basedir =
      ({ Basedir := "/b" } : Config).Basedir ∧
    (setStructure { Basedir := "/b", Name := "other" }).ScratchDir =
      (setStructure ({ Basedir := "/b" } : Config)).ScratchDir :=
  ⟨rfl, ((C8_derived_path_determinism { Basedir := "/b" }).2.2.2.2.2.2.2
    { Basedir := "/b", Name := "other" } rfl).1⟩

/-- C5: the structure gate of `InstallSoftware`. Whenever the workspace
structure check fails, `InstallSoftware` returns its error and no Builder
invocation is constructed; and whenever one of the scratch, install, build,
run or download directories is an empty path or missing on disk, the check
fails with the error naming the first such directory, in that order. -/
theorem C5_structure_gate (w : Config) (world : World) (n u : String) (a : List String) :
    (∀ e, checkWorkspaceStructure w world = some e →
      InstallSoftware w world n u a = (some e, none)) ∧
    ((w.ScratchDir = "" ∨ PathExists world.fs w.ScratchDir = false) →
      InstallSoftware w world n u a =
        (some "workspace's scratch directory is undefined or does not exist", none)) ∧
    (¬(w.ScratchDir = "" ∨ PathExists world.fs w.ScratchDir = false) →
      (w.InstallDir = "" ∨ PathExists world.fs w.InstallDir = false) →
      InstallSoftware w world n u a =
        (some "workspace's install directory is undefined or does not exist", none)) ∧
    (¬(w.ScratchDir = "" ∨ PathExists world.fs w.ScratchDir = false) →
      ¬(w.InstallDir = "" ∨ PathExists world.fs w.InstallDir = false) →
      (w.BuildDir = "" ∨ PathExists world.fs w.BuildDir = false) →
      InstallSoftware w world n u a =
        (some "workspace's build directory is undefined or does not exist", none)) ∧
    (¬(w.ScratchDir = "" ∨ PathExists world.fs w.ScratchDir = false) →
      ¬(w.InstallDir = "" ∨ PathExists world.fs w.InstallDir = false) →
      ¬(w.BuildDir = "" ∨ PathExists world.fs w.BuildDir = false) →
      (w.RunDir = "" ∨ PathExists world.fs w.RunDir = false) →
      InstallSoftware w world n u a =
        (some "workspace's run directory is undefined or does not exist", none)) ∧
    (¬(w.ScratchDir = "" ∨ PathExists world.fs w.ScratchDir = false) →
      ¬(w.InstallDir = "" ∨ PathExists world.fs w.InstallDir = false) →
      ¬(w.BuildDir = "" ∨ PathExists world.fs w.BuildDir = false) →
      ¬(w.RunDir = "" ∨ PathExists world.fs w.RunDir = false) →
      (w.DownloadDir = "" ∨ PathExists world.fs w.DownloadDir = false) →
      InstallSoftware w world n u a =
        (some "workspace's download directory is undefined or does not exist", none)) := by
  have base : ∀ e, checkWorkspaceStructure w world = some e →
      InstallSoftware w world n u a = (some e, none) := by
    intro e he
    unfold InstallSoftware
    rw [he]
  refine ⟨base, ?_, ?_, ?_, ?_, ?_⟩
  · intro g1
    exact base _ (by unfold checkWorkspaceStructure; rw [if_pos g1])
  · intro g1 g2
    exact base _ (by unfold checkWorkspaceStructure; rw [if_neg g1, if_pos g2])
  · intro g1 g2 g3
    exact base _ (by unfold checkWorkspaceStructure; rw [if_neg g1, if_neg g2, if_pos g3])
  · intro g1 g2 g3 g4
    exact base _ (by unfold checkWorkspaceStructure; rw [if_neg g1, if_neg g2, if_neg g3, if_pos g4])
  · intro g1 g2 g3 g4 g5
    exact base _
      (by unfold checkWorkspaceStructure; rw [if_neg g1, if_neg g2, if_neg g3, if_neg g4, if_pos g5])

/-- Witness for C5: with an empty scratch path, `InstallSoftware` fails with
the scratch error and constructs no Builder invocation. -/
theorem C5_witness :
    (({} : Config).ScratchDir = "" ∨ PathExists (plainWorld [] []).fs ({} : Config).ScratchDir = false) ∧
    InstallSoftware {} (plainWorld [] []) "pkg" "http://example.org/pkg" [] =
      (some "workspace's scratch directory is undefined or does not exist", none) := by
  have h : ({} : Config).ScratchDir = "" ∨ PathExists (plainWorld [] []).fs ({} : Config).ScratchDir = false :=
    Or.inl rfl
  exact ⟨h, (C5_structure_gate {} (plainWorld [] []) "pkg" "http://example.org/pkg" []).2.1 h⟩

/-- C9: when the structure gate passes, `InstallSoftware` assembles exactly
the documented Builder invocation (the workspace scratch and install
directories, the per-software build directory and source path, the extra
configure arguments and the software's name and URL) and returns the
collaborator's `Load` error, else its `Install` error, verbatim, and no
error when both succeed. -/
theorem C9_builder_invocation (w : Config) (world : World) (n u : String) (a : List String)
    (h : checkWorkspaceStructure w world = none) :
    ∃ b : Builder,
      b = { Env := { ScratchDir := w.ScratchDir, InstallDir := w.InstallDir,
                     BuildDir := joinPath w.BuildDir n, SrcPath := joinPath w.DownloadDir n },
            ConfigureExtraArgs := a, App := { Name := n, URL := u } } ∧
      (InstallSoftware w world n u a).2 = some b ∧
      (InstallSoftware w world n u a).1 =
        (match world.builderLoadErr b true with
         | some e => some e
         | none => world.builderInstallErr b) := by
  refine ⟨_, rfl, ?_, ?_⟩
  all_goals
    simp only [InstallSoftware, h]
    cases hL : world.builderLoadErr
        { Env := { ScratchDir := w.ScratchDir, InstallDir := w.InstallDir,
                   BuildDir := joinPath w.BuildDir n, SrcPath := joinPath w.DownloadDir n },
          ConfigureExtraArgs := a, App := { Name := n, URL := u } } true with
    | some e => simp [hL]
    | none =>
      cases hI : world.builderInstallErr
          { Env := { ScratchDir := w.ScratchDir, InstallDir := w.InstallDir,
                     BuildDir := joinPath w.BuildDir n, SrcPath := joinPath w.DownloadDir n },
            ConfigureExtraArgs := a, App := { Name := n, URL := u } } with
      | some e => simp [hL, hI]
      | none => simp [hL, hI]

/-- Witness for C9: a concrete workspace whose five gated directories exist;
the gate passes and the Builder invocation is constructed. -/
theorem C9_witness :
    checkWorkspaceStructure
      { Basedir := "/b", ScratchDir := "/b/scratch", InstallDir := "/b/install",
        BuildDir := "/b/build", RunDir := "/b/run", DownloadDir := "/b/download" }
      (plainWorld ["/b", "/b/scratch", "/b/install", "/b/build", "/b/run", "/b/download"] []) = none ∧
    (InstallSoftware
      { Basedir := "/b", ScratchDir := "/b/scratch", InstallDir := "/b/install",
        BuildDir := "/b/build", RunDir := "/b/run", DownloadDir := "/b/download" }
      (plainWorld ["/b", "/b/scratch", "/b/install", "/b/build", "/b/run", "/b/download"] [])
      "pkg" "http://example.org/pkg" ["--opt"]).2 =
      some { Env := { ScratchDir := "/b/scratch", InstallDir := "/b/install",
                      BuildDir := "/b/build/pkg", SrcPath := "/b/download/pkg" },
             ConfigureExtraArgs := ["--opt"], App := { Name := "pkg", URL := "http://example.org/pkg" } } := by
  have h : checkWorkspaceStructure
      { Basedir := "/b", ScratchDir := "/b/scratch", InstallDir := "/b/install",
        BuildDir := "/b/build", RunDir := "/b/run", DownloadDir := "/b/download" }
      (plainWorld ["/b", "/b/scratch", "/b/install", "/b/build", "/b/run", "/b/download"] []) = none := by
    decide
  obtain ⟨b, hb, h2, _⟩ := C9_builder_invocation _ _ "pkg" "http://example.org/pkg" ["--opt"] h
  refine ⟨h, ?_⟩
  rw [h2, hb]
  rfl

/-- C10: the structure gate never inspects the src directory. With the five
checked directories fine, `checkWorkspaceStructure` returns no error, and it
returns the same result whatever `SrcDir` holds (in particular the empty
path, with no src directory on disk); yet every successful `Init` does
create the src directory on disk. -/
theorem C10_gate_ignores_src (w : Config) (world : World)
    (h1 : ¬(w.ScratchDir = "" ∨ PathExists world.fs w.ScratchDir = false))
    (h2 : ¬(w.InstallDir = "" ∨ PathExists world.fs w.InstallDir = false))
    (h3 : ¬(w.BuildDir = "" ∨ PathExists world.fs w.BuildDir = false))
    (h4 : ¬(w.RunDir = "" ∨ PathExists world.fs w.RunDir = false))
    (h5 : ¬(w.DownloadDir = "" ∨ PathExists world.fs w.DownloadDir = false)) :
    checkWorkspaceStructure w world = none ∧
    (∀ s : String, checkWorkspaceStructure { w with SrcDir := s } world = none) ∧
    (∀ (w2 w3 : Config) (world2 world3 : World), Init w2 world2 = (none, w3, world3) →
      PathExists world3.fs (joinPath w2.Basedir "src") = true) := by
  have hrw : ∀ s : String,
      checkWorkspaceStructure { w with SrcDir := s } world = checkWorkspaceStructure w world :=
    fun _ => rfl
  have hw : checkWorkspaceStructure w world = none := by
    unfold checkWorkspaceStructure
    rw [if_neg h1, if_neg h2, if_neg h3, if_neg h4, if_neg h5]
  exact ⟨hw, fun s => (hrw s).trans hw,
    fun w2 w3 world2 world3 h => (Init_ok h).2.2.2.2.2.2.1⟩

/-- Witness for C10: the gate passes on a workspace with an empty `SrcDir`
and no src directory anywhere on disk. -/
theorem C10_witness :
    ¬(("/b/scratch" : String) = "" ∨
        PathExists (plainWorld ["/b/scratch", "/b/install", "/b/build", "/b/run", "/b/download"] []).fs
          "/b/scratch" = false) ∧
    checkWorkspaceStructure
      { Basedir := "/b", ScratchDir := "/b/scratch", InstallDir := "/b/install",
        BuildDir := "/b/build", RunDir := "/b/run", DownloadDir := "/b/download" }
      (plainWorld ["/b/scratch", "/b/install", "/b/build", "/b/run", "/b/download"] []) = none := by
  refine ⟨by decide, ?_⟩
  exact (C10_gate_ignores_src _ _ (by decide) (by decide) (by decide) (by decide) (by decide)).1

/-! ## ParseCfg key handling -/

theorem applyKVs_all_dir {kvs : List KeyValue} (w : Config)
    (h : ∀ p ∈ kvs, p.Key = "dir") :
    applyKVs kvs w = (none, { w with Basedir := (kvs.map KeyValue.Value).getLastD w.Basedir }) := by
  induction kvs generalizing w with
  | nil => rfl
  | cons p rest ih =>
    have hp : p.Key = "dir" := h p (List.mem_cons_self _ _)
    simp only [applyKVs, hp, if_pos]
    rw [ih _ (fun q hq => h q (List.mem_cons_of_mem _ hq)), List.map_cons, List.getLastD_cons]

theorem applyKVs_invalid {pre : List KeyValue} (bad : KeyValue) (post : List KeyValue) (w : Config)
    (hpre : ∀ p ∈ pre, p.Key = "dir") (hbad : bad.Key ≠ "dir") :
    (applyKVs (pre ++ bad :: post) w).1 = some ("invalid key (" ++ bad.Key ++ ")") := by
  induction pre generalizing w with
  | nil => simp [applyKVs, hbad]
  | cons p rest ih =>
    have hp : p.Key = "dir" := hpre p (List.mem_cons_self _ _)
    simp only [List.cons_append, applyKVs, hp, if_pos]
    exact ih _ (fun q hq => hpre q (List.mem_cons_of_mem _ hq))

/-- C6: for every config file whose parsed key-value pairs all have key
`dir`, `ParseCfg` succeeds and sets `Basedir` to the value of the (last)
`dir` pair; and whenever the pairs contain a key other than `dir`,
`ParseCfg` fails with the invalid-key error naming the first such key. -/
theorem C6_parse_cfg_keys (w : Config) (world : World) (kvs : List KeyValue)
    (hfile : w.ConfigFile ≠ "")
    (hload : LoadKeyValueConfig world.fs w.ConfigFile = .ok kvs) :
    ((∀ p ∈ kvs, p.Key = "dir") →
      ParseCfg w world =
        (none, { w with Basedir := (kvs.map KeyValue.Value).getLastD w.Basedir })) ∧
    (∀ (pre : List KeyValue) (bad : KeyValue) (post : List KeyValue),
      kvs = pre ++ bad :: post → (∀ p ∈ pre, p.Key = "dir") → bad.Key ≠ "dir" →
      (ParseCfg w world).1 = some ("invalid key (" ++ bad.Key ++ ")")) := by
  constructor
  · intro hall
    unfold ParseCfg
    rw [if_neg hfile, hload]
    exact applyKVs_all_dir w hall
  · intro pre bad post hk hpre hbad
    unfold ParseCfg
    rw [if_neg hfile, hload, hk]
    exact applyKVs_invalid bad post w hpre hbad

/-- Witness for C6: a concrete `dir=/data` config file parses successfully
and sets `Basedir` to `/data`; a concrete `foo=bar` line fails with the
invalid-key error. -/
theorem C6_witness :
    ParseCfg { ConfigFile := "/c/workspace.conf" }
      (plainWorld [] [("/c/workspace.conf", "dir=/data\n")]) =
      (none, { ConfigFile := "/c/workspace.conf", Basedir := "/data" }) ∧
    (ParseCfg { ConfigFile := "/c/workspace.conf" }
      (plainWorld [] [("/c/workspace.conf", "foo=bar\n")])).1 =
      some "invalid key (foo)" := by
  constructor
  · exact (C6_parse_cfg_keys { ConfigFile := "/c/workspace.conf" }
      (plainWorld [] [("/c/workspace.conf", "dir=/data\n")])
      [{ Key := "dir", Value := "/data" }] (by decide) rfl).1 (by decide)
  · exact (C6_parse_cfg_keys { ConfigFile := "/c/workspace.conf" }
      (plainWorld [] [("/c/workspace.conf", "foo=bar\n")])
      [{ Key := "foo", Value := "bar" }] (by decide) rfl).2
      [] { Key := "foo", Value := "bar" } [] rfl (by decide) (by decide)

/-- C4 (amended): `Init` returns the first directory-creation error
encountered; the errors for the download, scratch, install and build
directories are wrapped with the directory purpose, while the errors for
the src and run directories are returned unwrapped. -/
theorem C4_init_error_wrapping (w : Config) (world : World) (e : String)
    (hb : IsDir world.fs w.Basedir = true) :
    (PathExists world.fs (joinPath w.Basedir "download") = false →
      world.mkdirFail (joinPath w.Basedir "download") = some e →
      (Init w world).1 = some ("unable to create the workspace's download directory "
        ++ joinPath w.Basedir "download" ++ ": " ++ e)) ∧
    (PathExists world.fs (joinPath w.Basedir "download") = true →
      PathExists world.fs (joinPath w.Basedir "scratch") = false →
      world.mkdirFail (joinPath w.Basedir "scratch") = some e →
      (Init w world).1 = some ("unable to create the workspace's scratch directory "
        ++ joinPath w.Basedir "scratch" ++ ": " ++ e)) ∧
    (PathExists world.fs (joinPath w.Basedir "download") = true →
      PathExists world.fs (joinPath w.Basedir "scratch") = true →
      PathExists world.fs (joinPath w.Basedir "install") = false →
      world.mkdirFail (joinPath w.Basedir "install") = some e →
      (Init w world).1 = some ("unable to create the workspace's install directory "
        ++ joinPath w.Basedir "install" ++ ": " ++ e)) ∧
    (PathExists world.fs (joinPath w.Basedir "download") = true →
      PathExists world.fs (joinPath w.Basedir "scratch") = true →
      PathExists world.fs (joinPath w.Basedir "install") = true →
      PathExists world.fs (joinPath w.Basedir "build") = false →
      world.mkdirFail (joinPath w.Basedir "build") = some e →
      (Init w world).1 = some ("unable to create the workspace's build directory "
        ++ joinPath w.Basedir "build" ++ ": " ++ e)) ∧
    (PathExists world.fs (joinPath w.Basedir "download") = true →
      PathExists world.fs (joinPath w.Basedir "scratch") = true →
      PathExists world.fs (joinPath w.Basedir "install") = true →
      PathExists world.fs (joinPath w.Basedir "build") = true →
      PathExists world.fs (joinPath w.Basedir "src") = false →
      world.mkdirFail (joinPath w.Basedir "src") = some e →
      (Init w world).1 = some e) ∧
    (PathExists world.fs (joinPath w.Basedir "download") = true →
      PathExists world.fs (joinPath w.Basedir "scratch") = true →
      PathExists world.fs (joinPath w.Basedir "install") = true →
      PathExists world.fs (joinPath w.Basedir "build") = true →
      PathExists world.fs (joinPath w.Basedir "src") = true →
      PathExists world.fs (joinPath w.Basedir "run") = false →
      world.mkdirFail (joinPath w.Basedir "run") = some e →
      (Init w world).1 = some e) := by
  refine ⟨?_, ?_, ?_, ?_, ?_, ?_⟩
  · intro hbad ho
    simp [Init, initDirs, setStructure, MkdirAll, hb, ho,
      pathExists_false_isDir hbad, pathExists_false_fileExists hbad, hbad]
  · intro h1 hbad ho
    simp [Init, initDirs, setStructure, Mkdir, hb, h1, hbad, ho]
  · intro h1 h2 hbad ho
    simp [Init, initDirs, setStructure, Mkdir, hb, h1, h2, hbad, ho]
  · intro h1 h2 h3 hbad ho
    simp [Init, initDirs, setStructure, Mkdir, hb, h1, h2, h3, hbad, ho]
  · intro h1 h2 h3 h4 hbad ho
    simp [Init, initDirs, setStructure, Mkdir, hb, h1, h2, h3, h4, hbad, ho]
  · intro h1 h2 h3 h4 h5 hbad ho
    simp [Init, initDirs, setStructure, Mkdir, hb, h1, h2, h3, h4, h5, hbad, ho]

/-- Counterexample for C4: when creating the src directory fails, `Init`
returns the raw error, not an error wrapped with the src directory's
purpose. -/
theorem C4_counterexample :
    (Init { Basedir := "/b" } srcFailWorld).1 = some "permission denied" ∧
    (Init { Basedir := "/b" } srcFailWorld).1 ≠
      some ("unable to create the workspace's src directory "
        ++ joinPath "/b" "src" ++ ": " ++ "permission denied") := by
  constructor
  · decide
  · decide

/-- Witness for C4: a concrete failing creation of the scratch directory
yields the wrapped scratch error. -/
theorem C4_witness :
    IsDir scratchFailWorld.fs ({ Basedir := "/b" } : Config).Basedir = true ∧
    (Init { Basedir := "/b" } scratchFailWorld).1 =
      some ("unable to create the workspace's scratch directory /b/scratch: disk full") := by
  refine ⟨by decide, ?_⟩
  exact (C4_init_error_wrapping { Basedir := "/b" } scratchFailWorld "disk full" (by decide)).2.1
    (by decide) (by decide) (by decide)

/-- C2 (amended): during first-run bootstrap, `Basedir` is defaulted to
HOME only if it was unset, but `{Name}_ws` is then appended in every case:
the workspace base directory that is created and recorded in the config
file is `{supplied}/{Name}_ws` (or `{home}/{Name}_ws` when unset), not the
supplied path itself. -/
theorem C2_basedir_appends_ws (w : Config) (world : World)
    (hcd : ¬ w.ConfDir = "") (hcf : ¬ w.ConfigFile = "")
    (m1 : world.mkdirFail (getPathToConfigDir w) = none)
    (f1 : FileExists world.fs (getPathToConfigDir w) = false)
    (m2 : world.mkdirFail
      (joinPath (if w.Basedir = "" then world.home else w.Basedir) (w.Name ++ "_ws")) = none)
    (f2 : FileExists world.fs
      (joinPath (if w.Basedir = "" then world.home else w.Basedir) (w.Name ++ "_ws")) = false)
    (c1 : world.createFail w.ConfigFile = none)
    (wr1 : world.writeFail w.ConfigFile = none)
    (s1 : world.syncFail w.ConfigFile = none)
    (d1 : IsDir world.fs w.ConfigFile = false)
    (n1 : ¬ w.ConfigFile = getPathToConfigDir w)
    (n2 : ¬ w.ConfigFile =
      joinPath (if w.Basedir = "" then world.home else w.Basedir) (w.Name ++ "_ws")) :
    (createDefaultConfigFile w world).1 = none ∧
    (createDefaultConfigFile w world).2.1.Basedir =
      joinPath (if w.Basedir = "" then world.home else w.Basedir) (w.Name ++ "_ws") ∧
    readFile (createDefaultConfigFile w world).2.2.fs w.ConfigFile =
      some ("dir=" ++
        joinPath (if w.Basedir = "" then world.home else w.Basedir) (w.Name ++ "_ws") ++ "\n") := by
  obtain ⟨w5, he, hr, hp⟩ :=
    createDefaultConfigFile_ok w world hcd hcf m1 f1 m2 f2 c1 wr1 s1 d1 n1 n2
  rw [he]
  exact ⟨rfl, rfl, hr⟩

/-- Counterexample for C2: a caller-supplied base directory `/data` is not
used as the workspace base directory: the bootstrap `Load` records
`/data/myws_ws` in the config file and in `Basedir`. -/
theorem C2_counterexample :
    (Load bootCfgNoFile bootWorld).2.1.Basedir = "/data/myws_ws" ∧
    readFile (Load bootCfgNoFile bootWorld).2.2.fs "/cfg/.myws/workspace.conf" =
      some "dir=/data/myws_ws\n" ∧
    ¬ ("/data/myws_ws" : String) = "/data" := by
  refine ⟨by decide, by decide, by decide⟩

/-- Witness for C2 at a concrete configuration with a supplied base
directory. -/
theorem C2_witness :
    ¬ bootCfg.ConfDir = "" ∧
    (createDefaultConfigFile bootCfg bootWorld).2.1.Basedir = "/data/myws_ws" := by
  refine ⟨by decide, ?_⟩
  have h := (C2_basedir_appends_ws bootCfg bootWorld (by decide) (by decide) rfl (by decide)
    rfl (by decide) rfl rfl rfl (by decide) (by decide) (by decide)).2.1
  rw [h]
  decide

/-- C3: first-run bootstrap. Given a config directory containing no config
file (and a cooperating filesystem), a single `Load` derives the config
file path `{ConfDir}/.{Name}/workspace.conf`, returns exactly the
distinguished needs-review error — neither success nor a filesystem
error — and leaves that config file on disk with the single line
`dir=<Basedir>` as content. -/
theorem C3_first_load_bootstrap (w : Config) (world : World)
    (h0 : w.ConfigFile = "") (hcd : ¬ w.ConfDir = "")
    (hnofile : FileExists world.fs (joinPath (getPathToConfigDir w) configFileName) = false)
    (m1 : world.mkdirFail (getPathToConfigDir w) = none)
    (f1 : FileExists world.fs (getPathToConfigDir w) = false)
    (m2 : world.mkdirFail
      (joinPath (if w.Basedir = "" then world.home else w.Basedir) (w.Name ++ "_ws")) = none)
    (f2 : FileExists world.fs
      (joinPath (if w.Basedir = "" then world.home else w.Basedir) (w.Name ++ "_ws")) = false)
    (c1 : world.createFail (joinPath (getPathToConfigDir w) configFileName) = none)
    (wr1 : world.writeFail (joinPath (getPathToConfigDir w) configFileName) = none)
    (s1 : world.syncFail (joinPath (getPathToConfigDir w) configFileName) = none)
    (d1 : IsDir world.fs (joinPath (getPathToConfigDir w) configFileName) = false)
    (n1 : ¬ joinPath (getPathToConfigDir w) configFileName = getPathToConfigDir w)
    (n2 : ¬ joinPath (getPathToConfigDir w) configFileName =
      joinPath (if w.Basedir = "" then world.home else w.Basedir) (w.Name ++ "_ws")) :
    (Load w world).1 = some "new configuration file created, it needs review" ∧
    readFile (Load w world).2.2.fs (joinPath (getPathToConfigDir w) configFileName) =
      some ("dir=" ++ (Load w world).2.1.Basedir ++ "\n") := by
  have hcf' : ¬ ({ w with ConfigFile := joinPath (getPathToConfigDir w) configFileName } :
      Config).ConfigFile = "" := joinPath_ne_empty _ (by decide)
  obtain ⟨w5, he, hr, hp⟩ := createDefaultConfigFile_ok
    { w with ConfigFile := joinPath (getPathToConfigDir w) configFileName } world
    hcd hcf' m1 f1 m2 f2 c1 wr1 s1 d1 n1 n2
  have hload : Load w world =
      (some "new configuration file created, it needs review",
       { w with ConfigFile := joinPath (getPathToConfigDir w) configFileName,
                Basedir := joinPath (if w.Basedir = "" then world.home else w.Basedir)
                  (w.Name ++ "_ws") },
       w5) := by
    simp only [Load, h0, getConfigFilePath, if_neg hcd, hnofile, Bool.false_eq_true,
      if_false, ite_true, ite_false, if_pos, he]
  rw [hload]
  exact ⟨rfl, hr⟩

/-- Witness for C3 at the concrete bootstrap configuration. -/
theorem C3_witness :
    (Load bootCfgNoFile bootWorld).1 =
      some "new configuration file created, it needs review" ∧
    readFile (Load bootCfgNoFile bootWorld).2.2.fs
        (joinPath (getPathToConfigDir bootCfgNoFile) configFileName) =
      some ("dir=" ++ (Load bootCfgNoFile bootWorld).2.1.Basedir ++ "\n") :=
  C3_first_load_bootstrap bootCfgNoFile bootWorld rfl (by decide) (by decide) rfl (by decide)
    rfl (by decide) rfl rfl rfl (by decide) (by decide) (by decide)

/-- C1 (amended): once the config file exists and records a base directory
that is present on disk — the state a first-run bootstrap leaves behind —
a second `Load` succeeds, sets `Basedir` from the file and recomputes the
six derived path fields in memory; the filesystem is returned unchanged, so
the six derived directories are not created on disk (they are only created
when `Basedir` itself is missing). -/
theorem C1_second_load_recomputes_paths (w : Config) (world : World) (b : String)
    (h0 : ¬ w.ConfigFile = "")
    (h1 : FileExists world.fs w.ConfigFile = true)
    (h2 : LoadKeyValueConfig world.fs w.ConfigFile = .ok [{ Key := "dir", Value := b }])
    (h3 : PathExists world.fs b = true) :
    Load w world = (none, setStructure { w with Basedir := b }, world) := by
  simp only [Load, if_neg h0, h1, ParseCfg, h2, applyKVs, ite_true, ite_false, if_pos,
    if_neg, reduceCtorEq, String.reduceEq, h3]

/-- Counterexample for C1: after a first-run bootstrap, the second `Load`
succeeds and sets the scratch path field, the base directory is on disk,
yet the derived scratch directory (like the other five) was never created
on disk. -/
theorem C1_counterexample :
    (Load (Load bootCfgNoFile bootWorld).2.1 (Load bootCfgNoFile bootWorld).2.2).1 = none ∧
    (Load (Load bootCfgNoFile bootWorld).2.1
      (Load bootCfgNoFile bootWorld).2.2).2.1.ScratchDir = "/data/myws_ws/scratch" ∧
    PathExists (Load (Load bootCfgNoFile bootWorld).2.1
      (Load bootCfgNoFile bootWorld).2.2).2.2.fs "/data/myws_ws" = true ∧
    PathExists (Load (Load bootCfgNoFile bootWorld).2.1
      (Load bootCfgNoFile bootWorld).2.2).2.2.fs "/data/myws_ws/scratch" = false := by
  refine ⟨by decide, by decide, by decide, by decide⟩

/-- Witness for C1 at the concrete post-bootstrap state. -/
theorem C1_witness :
    Load (Load bootCfgNoFile bootWorld).2.1 (Load bootCfgNoFile bootWorld).2.2 =
      (none,
       setStructure { (Load bootCfgNoFile bootWorld).2.1 with Basedir := "/data/myws_ws" },
       (Load bootCfgNoFile bootWorld).2.2) :=
  C1_second_load_recomputes_paths _ _ "/data/myws_ws" (by decide) (by decide) rfl (by decide)

end GoWorkspace
